import Mathlib

/-!
Shallow embedding of the quick-translator repository's translation engine:
`translate_gemini.py` (class `QuickTranslator`), `translate_plamo.py`
(class `PlamoTranslator`) and `translation_benchmark.py`
(class `TranslationBenchmark`).

External effects — subprocess invocations, the filesystem, the wall clock
and the process environment — are passed in explicitly as oracle values;
everything else follows the Python source line by line.  Wall-clock values
are modelled as integers (the claims under study concern which clock
readings are used, not fractional arithmetic).
-/

/-- Python's `str.strip()` with no argument: drop leading and trailing
whitespace.  Implemented structurally over the character list so that it
evaluates inside the kernel. -/
def pyStrip (s : String) : String :=
  String.mk
    ((((s.data.dropWhile Char.isWhitespace).reverse.dropWhile
        Char.isWhitespace).reverse))

/-- Result of a completed `subprocess.run` call: exit status and captured
standard output / standard error (`capture_output=True, text=True`). -/
structure CmdResult where
  returncode : Int
  stdout : String
  stderr : String
deriving Repr, DecidableEq

/-- How a `subprocess.run` call can end: normally, or by raising
`TimeoutExpired`, another `SubprocessError`, or a `FileNotFoundError`-style
spawn error. -/
inductive RunOutcome where
  | ok (r : CmdResult)
  | timeout
  | subprocErr (msg : String)
  | spawnErr (msg : String)
deriving Repr, DecidableEq

/-- The Python exception values the translated code can raise or handle. -/
inductive PyErr where
  | valueError (msg : String)
  | timeoutExpired
  | subprocessError (msg : String)
  | fileNotFoundError (msg : String)
  | typeError (msg : String)
  | attributeError (msg : String)
  | keyError (msg : String)
  | indexError (msg : String)
deriving Repr, DecidableEq

/-- Python's `str(e)` for the exceptions above.  For `KeyError` the stored
message is already the repr of the missing key, which is what Python
renders. -/
def pyErrStr : PyErr → String
  | .valueError m => m
  | .timeoutExpired => "Command timed out"
  | .subprocessError m => m
  | .fileNotFoundError m => m
  | .typeError m => m
  | .attributeError m => m
  | .keyError m => m
  | .indexError m => m

/-- JSON values as produced by `json.loads`.  Numbers are modelled as
integers; no claim under study depends on fractional numeric payloads. -/
inductive Json where
  | null
  | bool (b : Bool)
  | num (n : Int)
  | str (s : String)
  | arr (elems : List Json)
  | obj (fields : List (String × Json))
deriving Repr

/-- Python truthiness of a JSON value. -/
def pyTruthy : Json → Bool
  | .null => false
  | .bool b => b
  | .num n => n != 0
  | .str s => s != ""
  | .arr xs => !xs.isEmpty
  | .obj fs => !fs.isEmpty

/-- Python's `str()` of a JSON value as used inside f-strings: a string
renders as itself; every other value renders via its repr. -/
def pyStr : Json → String
  | .str s => s
  | .null => "None"
  | .bool true => "True"
  | .bool false => "False"
  | .num n => toString n
  | .arr _ => "[...]"
  | .obj _ => "\x7b...\x7d"

/-- Substring test, Python's `key in s` for strings. -/
def strContainsSub (s key : String) : Bool :=
  key == "" || (s.splitOn key).length ≥ 2

/-- Python's `key in j` membership test, which raises `TypeError` on
non-container values. -/
def jIn (key : String) : Json → Except PyErr Bool
  | .obj fields => .ok (fields.any (fun kv => kv.1 == key))
  | .arr elems =>
    .ok (elems.any (fun e => match e with | .str s => s == key | _ => false))
  | .str s => .ok (strContainsSub s key)
  | _ => .error (.typeError "argument is not iterable")

/-- Python's `j[key]` subscription with a string key. -/
def jGetKey (j : Json) (key : String) : Except PyErr Json :=
  match j with
  | .obj fields =>
    match fields.find? (fun kv => kv.1 == key) with
    | some kv => .ok kv.2
    | none => .error (.keyError ("\x27" ++ key ++ "\x27"))
  | .arr _ => .error (.typeError "list indices must be integers, not str")
  | .str _ => .error (.typeError "string indices must be integers")
  | _ => .error (.typeError "object is not subscriptable")

/-- Python's `j[i]` subscription with a non-negative integer index. -/
def jIndex (j : Json) (i : Nat) : Except PyErr Json :=
  match j with
  | .arr elems =>
    match elems.get? i with
    | some e => .ok e
    | none => .error (.indexError "list index out of range")
  | .str s =>
    match s.data.get? i with
    | some ch => .ok (.str (String.mk [ch]))
    | none => .error (.indexError "string index out of range")
  | _ => .error (.typeError "object is not subscriptable")

/-- Python's `j.get(key, fallback)`, a `dict` method (`AttributeError` on
anything that is not a dict). -/
def jGetD (j : Json) (key : String) (fallback : Json) : Except PyErr Json :=
  match j with
  | .obj fields =>
    match fields.find? (fun kv => kv.1 == key) with
    | some kv => .ok kv.2
    | none => .ok fallback
  | _ => .error (.attributeError "object has no attribute get")

/-- Python truthiness check `not x` for an optional string: `None` and the
empty string are falsy. -/
def optStrFalsy : Option String → Bool
  | none => true
  | some s => s == ""

/-- View a subprocess outcome as a value of the `Except` monad over Python
exceptions. -/
def runToExcept : RunOutcome → Except PyErr CmdResult
  | .ok r => .ok r
  | .timeout => .error .timeoutExpired
  | .subprocErr m => .error (.subprocessError m)
  | .spawnErr m => .error (.fileNotFoundError m)

/-- Outcome of one translation call as observed by `run`: the value of a
normal return, or the message of the `ValueError` that reached the caller. -/
inductive TransOutcome where
  | success (text : String) (elapsed : Int)
  | failure (msg : String)
deriving Repr, DecidableEq

namespace QuickTranslator

/-- `QuickTranslator._get_api_key`, lines 20-33 of `translate_gemini.py`:
probe `$GEMINI_API_KEY` through the login shell; on `TimeoutExpired` or
`SubprocessError` fall back to `os.environ.get`.  A successful probe
returns its trimmed stdout when non-empty and `None` otherwise (there is
no environment fallback on that branch); an uncaught exception such as
`FileNotFoundError` propagates. -/
def getApiKey (probe : RunOutcome) (envVar : Option String) :
    Except PyErr (Option String) :=
  match probe with
  | .ok result =>
    let apiKey := pyStrip result.stdout
    .ok (if apiKey != "" then some apiKey else none)
  | .timeout => .ok envVar
  | .subprocErr _ => .ok envVar
  | .spawnErr m => .error (.fileNotFoundError m)

/-- The error message built at lines 145-147 when a curl attempt exits
non-zero: its exit code, and its stderr when non-empty. -/
def transportMsg (result : CmdResult) : String :=
  let base := "curlエラー: 接続に失敗しました (exit code: " ++
    toString result.returncode ++ ")"
  if result.stderr != "" then base ++ "\n詳細: " ++ result.stderr else base

/-- Lines 159-184 of `translate_gemini.py`: parse the response body with
`json.loads` (the `parse` oracle; `none` models `JSONDecodeError`) and
extract the translated text, raising the classified `ValueError`s
(malformed JSON, API error object, missing result path, empty result).
The emptiness test at line 180 precedes the `strip()` at line 184. -/
def classifyResponse (parse : String → Option Json) (responseData : String) :
    Except PyErr String := do
  let responseJson ←
    match parse responseData with
    | none =>
      Except.error (.valueError ("エラー: 無効なJSONレスポンス\n" ++ responseData))
    | some j => Except.ok j
  if ← jIn "error" responseJson then
    let errObj ← jGetKey responseJson "error"
    let errMsg ← jGetD errObj "message" (Json.str "不明なエラー")
    throw (.valueError ("APIエラー: " ++ pyStr errMsg))
  let noResult : PyErr := .valueError "エラー: 翻訳結果が取得できませんでした"
  if !(← jIn "candidates" responseJson) then
    throw noResult
  let candidates ← jGetKey responseJson "candidates"
  if !(pyTruthy candidates) then
    throw noResult
  let cand0 ← jIndex candidates 0
  if !(← jIn "content" cand0) then
    throw noResult
  let content ← jGetKey cand0 "content"
  if !(← jIn "parts" content) then
    throw noResult
  let parts ← jGetKey content "parts"
  if !(pyTruthy parts) then
    throw noResult
  let part0 ← jIndex parts 0
  let translatedText ← jGetKey part0 "text"
  if !(pyTruthy translatedText) then
    throw (.valueError "エラー: 翻訳結果が空でした")
  match translatedText with
  | .str s => return (pyStrip s)
  | _ => throw (.attributeError "object has no attribute strip")

/-- The oracle inputs of one `QuickTranslator.translate_with_api` call.
`t0` is the reading of `time.time()` at line 88; `buildDur` is the wall
time spent writing the temporary payload file (lines 92-94); `d1` and `d2`
are the wall times of the first (header) and second (URL-parameter) curl
invocations. -/
structure GeminiWorld where
  run1 : RunOutcome
  run2 : RunOutcome
  parse : String → Option Json
  t0 : Int
  buildDur : Int
  d1 : Int
  d2 : Int

/-- The body of the `try` at lines 90-186: first curl attempt (header
variant, line 123), the `end_time` reading at line 131 — taken right after
the *first* attempt and never updated — the fallback to the URL-parameter
variant on a non-zero exit (lines 135-148), then response classification.
The temp-file cleanup in `finally` cannot change the outcome (its
`OSError` is swallowed at lines 154-157). -/
def tryBody (w : GeminiWorld) : Except PyErr (String × Int) :=
  match runToExcept w.run1 with
  | .error e => .error e
  | .ok r1 =>
    let endTime := w.t0 + w.buildDur + w.d1
    let elapsedTime := endTime - w.t0
    let afterFallback : Except PyErr CmdResult :=
      if r1.returncode != 0 then
        match runToExcept w.run2 with
        | .error e => .error e
        | .ok r2 =>
          if r2.returncode != 0 then .error (.valueError (transportMsg r2))
          else .ok r2
      else .ok r1
    match afterFallback with
    | .error e => .error e
    | .ok result =>
      match classifyResponse w.parse result.stdout with
      | .error e => .error e
      | .ok translatedText => .ok (translatedText, elapsedTime)

/-- The `except` clauses at lines 188-202: `TimeoutExpired` and
`SubprocessError` are classified, and every other exception — including
the classified `ValueError`s raised inside the body — is re-raised as
`ValueError` with the generic prefix. -/
def handleExc : PyErr → String
  | .timeoutExpired => "タイムアウトエラー: API呼び出しがタイムアウトしました"
  | .subprocessError m => "プロセスエラー: " ++ m
  | e => "予期しないエラー: " ++ pyErrStr e

/-- `QuickTranslator.translate_with_api`, lines 57-202. -/
def translateWithApi (apiKey : Option String) (w : GeminiWorld) : TransOutcome :=
  if optStrFalsy apiKey then
    .failure "エラー: 環境変数GEMINI_API_KEYが設定されていません"
  else
    match tryBody w with
    | .ok (text, elapsed) => .success text elapsed
    | .error e => .failure (handleExc e)

/-- `QuickTranslator.run`, lines 204-242.  Dialog and clipboard effects
are ignored; only the returned Boolean matters. -/
def run (apiKey : Option String) (w : GeminiWorld) (inputText : String) : Bool :=
  if inputText == "" then false
  else
    match translateWithApi apiKey w with
    | .success _ _ => true
    | .failure _ => false

/-- `main` of `translate_gemini.py`, lines 245-264: strip the raw input,
run the translator, and map the Boolean to the process exit code. -/
def mainExit (apiKey : Option String) (w : GeminiWorld) (rawInput : String) :
    Int :=
  if run apiKey w (pyStrip rawInput) then 0 else 1

end QuickTranslator

namespace PlamoTranslator

/-- The fixed list of conventionally important directories at lines
100-104 of `translate_plamo.py`; `os.path.expanduser` resolves `~` to the
home directory. -/
def importantPaths (home : String) : List String :=
  [home ++ "/.local/bin", "/opt/homebrew/bin", "/usr/local/bin"]

/-- One iteration of the loop at lines 107-109: prepend the important path
when it is not already present and exists on disk. -/
def ensureStep (isDir : String → Bool) (pathList : List String)
    (importantPath : String) : List String :=
  if !pathList.contains importantPath && isDir importantPath then
    importantPath :: pathList
  else pathList

/-- `PlamoTranslator._ensure_common_paths`, lines 97-111: iterate the
fixed list in reverse, prepending each missing-but-existing entry. -/
def ensureCommonPaths (home : String) (isDir : String → Bool)
    (pathList : List String) : List String :=
  ((importantPaths home).reverse).foldl (ensureStep isDir) pathList

/-- `os.path.join` for the cases arising here. -/
def osPathJoin (dir name : String) : String :=
  if name.startsWith "/" then name
  else if dir == "" then name
  else if dir.endsWith "/" then dir ++ name
  else dir ++ "/" ++ name

/-- The oracle inputs for locating `plamo-translate`: the shell name, the
result of the `$PATH` probe subprocess, the home directory, and the
filesystem oracles (`os.path.isdir`, `os.path.isfile`,
`os.access(_, X_OK)`). -/
structure PlamoEnv where
  shellName : String
  pathProbe : RunOutcome
  home : String
  isDir : String → Bool
  isFile : String → Bool
  accessXOk : String → Bool

/-- `PlamoTranslator._get_path_from_shell`, lines 42-95: fetch `$PATH`
through the login shell, parse it (newline-separated for fish,
colon-separated otherwise, blanks dropped), then augment with the
important paths.  Every probe failure — `TimeoutExpired`,
`SubprocessError`, `FileNotFoundError`, non-zero exit, empty output —
yields `[]` before augmentation is reached.  Debug prints are ignored. -/
def getPathFromShell (env : PlamoEnv) : List String :=
  match env.pathProbe with
  | .ok result =>
    if result.returncode != 0 then []
    else
      let pathOutput := pyStrip result.stdout
      if pathOutput == "" then []
      else
        let rawList :=
          if env.shellName == "fish" then (pathOutput.splitOn "\n").map pyStrip
          else (pathOutput.splitOn ":").map pyStrip
        let pathList := rawList.filter (fun p => p != "")
        ensureCommonPaths env.home env.isDir pathList
  | _ => []

/-- The scan loop at lines 35-38: first directory holding an executable
file named `plamo-translate` wins. -/
def scanForPlamo (env : PlamoEnv) : List String → Option String
  | [] => none
  | pathDir :: rest =>
    let plamoPath := osPathJoin pathDir "plamo-translate"
    if env.isFile plamoPath && env.accessXOk plamoPath then some plamoPath
    else scanForPlamo env rest

/-- `PlamoTranslator._search_via_shell`, lines 25-40: an empty directory
list short-circuits to `(None, [])`; otherwise the list is scanned and
returned alongside the result. -/
def searchViaShell (env : PlamoEnv) : Option String × List String :=
  let pathList := getPathFromShell env
  if pathList.isEmpty then (none, [])
  else
    match scanForPlamo env pathList with
    | some plamoPath => (some plamoPath, pathList)
    | none => (none, pathList)

/-- The oracle inputs of one `translate_with_plamo_cli` call: the
`plamo-translate` subprocess outcome, the `time.time()` reading at line
169, and the subprocess's wall time. -/
structure PlamoWorld where
  cliRun : RunOutcome
  t0 : Int
  d1 : Int

/-- Python's `a or b` on strings (line 186). -/
def strOrElse (a b : String) : String := if a != "" then a else b

/-- The `except` clauses at lines 196-212, mirroring the Gemini ones. -/
def handleExc : PyErr → String
  | .timeoutExpired => "タイムアウトエラー: plamo-translateの実行がタイムアウトしました"
  | .subprocessError m => "プロセスエラー: " ++ m
  | e => "予期しないエラー: " ++ pyErrStr e

/-- The body of the `try` at lines 171-194: run the CLI, read the clock,
surface a non-zero exit as a classified `ValueError`, then strip the
output — here the `strip()` happens *before* the emptiness check. -/
def tryBody (w : PlamoWorld) : Except PyErr (String × Int) :=
  match runToExcept w.cliRun with
  | .error e => .error e
  | .ok result =>
    let elapsedTime := (w.t0 + w.d1) - w.t0
    if result.returncode != 0 then
      .error (.valueError
        ("plamo-translateエラー: " ++ strOrElse result.stderr result.stdout))
    else
      let translatedText := pyStrip result.stdout
      if translatedText == "" then
        .error (.valueError "エラー: 翻訳結果が空でした")
      else .ok (translatedText, elapsedTime)

/-- `PlamoTranslator.translate_with_plamo_cli`, lines 162-212. -/
def translateWithPlamoCli (plamoPath : Option String) (w : PlamoWorld) :
    TransOutcome :=
  if optStrFalsy plamoPath then .failure "plamo-translateが見つかりません"
  else
    match tryBody w with
    | .ok (text, elapsed) => .success text elapsed
    | .error e => .failure (handleExc e)

/-- `PlamoTranslator.run`, lines 214-254; dialog and clipboard effects are
ignored. -/
def run (plamoPath : Option String) (w : PlamoWorld) (inputText : String) :
    Bool :=
  if inputText == "" then false
  else if optStrFalsy plamoPath then false
  else
    match translateWithPlamoCli plamoPath w with
    | .success _ _ => true
    | .failure _ => false

/-- `main` of `translate_plamo.py`, lines 257-276. -/
def mainExit (plamoPath : Option String) (w : PlamoWorld)
    (rawInput : String) : Int :=
  if run plamoPath w (pyStrip rawInput) then 0 else 1

end PlamoTranslator

namespace TranslationBenchmark

/-- `TranslationBenchmark._get_api_key`, lines 61-73 of
`translation_benchmark.py`: like the QuickTranslator resolver, but an
empty successful probe falls back to `os.environ.get`, and the bare
`except:` catches every exception. -/
def getApiKey (probe : RunOutcome) (envVar : Option String) : Option String :=
  match probe with
  | .ok result =>
    let apiKey := pyStrip result.stdout
    if apiKey != "" then some apiKey else envVar
  | _ => envVar

end TranslationBenchmark

instance {ε α : Type} [DecidableEq ε] [DecidableEq α] :
    DecidableEq (Except ε α) := fun a b =>
  match a, b with
  | .error e, .error f =>
    if h : e = f then .isTrue (congrArg Except.error h)
    else .isFalse (fun hh => h (Except.error.inj hh))
  | .error _, .ok _ => .isFalse (fun hh => Except.noConfusion hh)
  | .ok _, .error _ => .isFalse (fun hh => Except.noConfusion hh)
  | .ok x, .ok y =>
    if h : x = y then .isTrue (congrArg Except.ok h)
    else .isFalse (fun hh => h (Except.ok.inj hh))

/-- A failure of the login-shell `$PATH` probe in the sense of the spec:
non-zero exit, timeout, or spawn error. -/
def probeFailed : RunOutcome → Prop
  | .ok r => r.returncode ≠ 0
  | .timeout => True
  | .subprocErr _ => True
  | .spawnErr _ => True

/-- A well-formed Gemini success body whose text field is whitespace only. -/
def respWhitespace : Json :=
  .obj [("candidates",
    .arr [.obj [("content",
      .obj [("parts", .arr [.obj [("text", .str "   ")]])])]])]

/-- A Gemini world whose first curl attempt exits zero and returns
`respWhitespace`. -/
def wWhitespace : QuickTranslator.GeminiWorld :=
  { run1 := .ok ⟨0, "RESP", ""⟩
    run2 := .ok ⟨0, "", ""⟩
    parse := fun s => if s == "RESP" then some respWhitespace else none
    t0 := 0, buildDur := 0, d1 := 2, d2 := 0 }

/-- A well-formed Gemini success body carrying the text `"  HELLO  "`. -/
def respHello : Json :=
  .obj [("candidates",
    .arr [.obj [("content",
      .obj [("parts", .arr [.obj [("text", .str "  HELLO  ")]])])]])]

/-- A Gemini world whose first curl attempt fails with exit 7 and whose
fallback attempt succeeds with a well-formed body; the temp-file write
takes 2 time units, the first attempt 1 and the second attempt 5. -/
def wFallbackSuccess : QuickTranslator.GeminiWorld :=
  { run1 := .ok ⟨7, "", "tls error"⟩
    run2 := .ok ⟨0, "RESP", ""⟩
    parse := fun s => if s == "RESP" then some respHello else none
    t0 := 100, buildDur := 2, d1 := 1, d2 := 5 }

/-- A Gemini world whose transport succeeds but whose body fails to parse
as JSON. -/
def wMalformed : QuickTranslator.GeminiWorld :=
  { run1 := .ok ⟨0, "Invalid JSON", ""⟩
    run2 := .ok ⟨0, "", ""⟩
    parse := fun _ => none
    t0 := 0, buildDur := 0, d1 := 1, d2 := 0 }

/-- A Gemini world whose first curl attempt exits zero with a body that
parses to an application-level error object. -/
def wAppError : QuickTranslator.GeminiWorld :=
  { run1 := .ok ⟨0, "ERR", ""⟩
    run2 := .ok ⟨0, "", ""⟩
    parse := fun s =>
      if s == "ERR" then
        some (.obj [("error", .obj [("message", .str "Invalid API key")])])
      else none
    t0 := 0, buildDur := 0, d1 := 1, d2 := 0 }

/-- A plamo world whose CLI run exits 1 with stderr `"boom"`. -/
def pwCliError : PlamoTranslator.PlamoWorld :=
  { cliRun := .ok ⟨1, "", "boom"⟩, t0 := 0, d1 := 1 }

/-- A locator environment whose `$PATH` probe times out while every
important directory exists on disk and `/usr/local/bin` holds an
executable `plamo-translate`. -/
def envProbeTimeout : PlamoTranslator.PlamoEnv :=
  { shellName := "zsh"
    pathProbe := .timeout
    home := "/Users/u"
    isDir := fun _ => true
    isFile := fun s => s == "/usr/local/bin/plamo-translate"
    accessXOk := fun s => s == "/usr/local/bin/plamo-translate" }

/-- C1.  The spec demands that a provider response whose text field is
whitespace-only yield the `EmptyResult` failure and that `Success.text` be
non-empty after trimming.  The Gemini implementation tests emptiness at
line 180 *before* the `strip()` at line 184, so the whitespace-only text
`"   "` passes the test and the call returns `Success` with the empty
string — the sibling plamo implementation strips first, showing the
intended order.  This theorem evaluates the model at that failing input. -/
theorem gemini_whitespace_text_success_empty :
    QuickTranslator.translateWithApi (some "key") wWhitespace =
      .success "" 2 ∧ pyStrip "   " = "" := by decide

/-- C6 counterexample.  A successful shell probe returning only a newline
makes `QuickTranslator._get_api_key` return `None` even though the
process environment holds `"env-key"`: the claimed fallback to the
process environment does not happen on the empty-but-successful branch. -/
theorem quick_get_api_key_empty_probe_cex :
    QuickTranslator.getApiKey (.ok ⟨0, "\n", ""⟩) (some "env-key") =
      .ok none ∧
    QuickTranslator.getApiKey (.ok ⟨0, "\n", ""⟩) (some "env-key") ≠
      .ok (some "env-key") := by decide

/-- C6 amended.  `QuickTranslator._get_api_key` falls back to the process
environment only when the shell probe raises (timeout or process error); a
successful probe returns its trimmed stdout when non-empty and `None`
otherwise, ignoring the process environment.  The benchmark resolver
`TranslationBenchmark._get_api_key` does fall back on an empty successful
probe, exactly as the claim states. -/
theorem get_api_key_fallback_behavior :
    (∀ (r : CmdResult) (envVar : Option String),
        QuickTranslator.getApiKey (.ok r) envVar =
          .ok (if pyStrip r.stdout != "" then some (pyStrip r.stdout)
               else none)) ∧
    (∀ envVar : Option String,
        QuickTranslator.getApiKey .timeout envVar = .ok envVar) ∧
    (∀ (m : String) (envVar : Option String),
        QuickTranslator.getApiKey (.subprocErr m) envVar = .ok envVar) ∧
    (∀ (r : CmdResult) (envVar : Option String),
        TranslationBenchmark.getApiKey (.ok r) envVar =
          (if pyStrip r.stdout != "" then some (pyStrip r.stdout)
           else envVar)) ∧
    (∀ envVar : Option String,
        TranslationBenchmark.getApiKey .timeout envVar = envVar) ∧
    (∀ (m : String) (envVar : Option String),
        TranslationBenchmark.getApiKey (.subprocErr m) envVar = envVar) ∧
    (∀ (m : String) (envVar : Option String),
        TranslationBenchmark.getApiKey (.spawnErr m) envVar = envVar) :=
  ⟨fun _ _ => rfl, fun _ => rfl, fun _ _ => rfl, fun _ _ => rfl,
   fun _ => rfl, fun _ _ => rfl, fun _ _ => rfl⟩

/-- C10.  Any raw input that is empty after trimming (including
whitespace-only input) makes `main` exit with code 1, for *every*
credential value and every transport/filesystem oracle — so no credential
check, transport call or temp-file write can influence (or be required
for) the outcome. -/
theorem run_empty_input_exit_one (rawInput : String)
    (h : pyStrip rawInput = "") :
    (∀ (apiKey : Option String) (w : QuickTranslator.GeminiWorld),
        QuickTranslator.mainExit apiKey w rawInput = 1) ∧
    (∀ (plamoPath : Option String) (w : PlamoTranslator.PlamoWorld),
        PlamoTranslator.mainExit plamoPath w rawInput = 1) := by
  constructor <;> intro x w <;>
    simp [QuickTranslator.mainExit, PlamoTranslator.mainExit,
      QuickTranslator.run, PlamoTranslator.run, h]

/-- Witness for C10 at the whitespace-only raw input `" \n "`. -/
theorem run_empty_input_exit_one_witness :
    QuickTranslator.mainExit (some "key") wWhitespace " \n " = 1 ∧
    PlamoTranslator.mainExit (some "/usr/local/bin/plamo-translate")
      pwCliError " \n " = 1 :=
  ⟨(run_empty_input_exit_one " \n " (by decide)).1 (some "key") wWhitespace,
   (run_empty_input_exit_one " \n " (by decide)).2
     (some "/usr/local/bin/plamo-translate") pwCliError⟩

/-- C9 counterexample.  With the `$PATH` probe timing out, every important
directory existing on disk, and an executable `plamo-translate` sitting in
`/usr/local/bin`, the locator returns `(none, [])`: the augmentation and
scan steps the claim promises are skipped, no path is found, and the
diagnostics list is empty rather than the augmented list. -/
theorem search_via_shell_probe_failure_cex :
    PlamoTranslator.searchViaShell envProbeTimeout = (none, []) ∧
    PlamoTranslator.ensureCommonPaths "/Users/u" (fun _ => true) [] =
      ["/Users/u/.local/bin", "/opt/homebrew/bin", "/usr/local/bin"] ∧
    envProbeTimeout.isFile "/usr/local/bin/plamo-translate" = true ∧
    envProbeTimeout.accessXOk "/usr/local/bin/plamo-translate" = true := by
  decide

/-- C9 amended.  When the login-shell `$PATH` probe fails (non-zero exit,
timeout, or spawn error) that step yields an empty directory list, and the
locator then short-circuits: augmentation and scanning are skipped
entirely and `(None, [])` is returned, so no important directory is
searched and the diagnostics list is empty. -/
theorem search_via_shell_probe_failure_skips_scan
    (env : PlamoTranslator.PlamoEnv) (h : probeFailed env.pathProbe) :
    PlamoTranslator.searchViaShell env = (none, []) := by
  unfold PlamoTranslator.searchViaShell PlamoTranslator.getPathFromShell
  cases hp : env.pathProbe with
  | ok r =>
    rw [hp] at h
    simp only [probeFailed] at h
    simp [h]
  | timeout => simp
  | subprocErr m => simp
  | spawnErr m => simp

/-- Witness for C9 amended at the concrete timed-out environment. -/
theorem search_via_shell_probe_failure_skips_scan_witness :
    PlamoTranslator.searchViaShell envProbeTimeout = (none, []) :=
  search_via_shell_probe_failure_skips_scan envProbeTimeout trivial

/-- C3.  If the first (header-variant) curl attempt exits with status
zero, the outcome of `translate_with_api` does not depend on the second
(URL-parameter) attempt at all — it is never executed — even when the
parsed body carries an application-level error object. -/
theorem gemini_no_fallback_on_zero_exit (apiKey : Option String)
    (w : QuickTranslator.GeminiWorld) (r : CmdResult)
    (h1 : w.run1 = .ok r) (h2 : r.returncode = 0)
    (ra rb : RunOutcome) (da db : Int) :
    QuickTranslator.translateWithApi apiKey { w with run2 := ra, d2 := da } =
      QuickTranslator.translateWithApi apiKey { w with run2 := rb, d2 := db } := by
  simp [QuickTranslator.translateWithApi, QuickTranslator.tryBody, h1,
    runToExcept, h2]

/-- Witness for C3: the application-error world `wAppError` has a
zero-exit first attempt, and two arbitrary distinct second attempts give
the same outcome. -/
theorem gemini_no_fallback_on_zero_exit_witness :
    QuickTranslator.translateWithApi (some "key")
        { wAppError with run2 := .ok ⟨0, "", ""⟩, d2 := 1 } =
      QuickTranslator.translateWithApi (some "key")
        { wAppError with run2 := .timeout, d2 := 9 } :=
  gemini_no_fallback_on_zero_exit (some "key") wAppError ⟨0, "ERR", ""⟩
    rfl rfl (.ok ⟨0, "", ""⟩) .timeout 1 9

/-- C4.  When both curl attempts complete with non-zero exit status, the
failure surfaced to the caller is built from the *second* attempt's exit
code and stderr (`transportMsg r2` mentions no datum of the first
attempt), re-raised under the generic prefix of the outer handler. -/
theorem gemini_transport_failure_carries_second_attempt
    (s : String) (hs : s ≠ "") (w : QuickTranslator.GeminiWorld)
    (r1 r2 : CmdResult)
    (h1 : w.run1 = .ok r1) (hr1 : r1.returncode ≠ 0)
    (h2 : w.run2 = .ok r2) (hr2 : r2.returncode ≠ 0) :
    QuickTranslator.translateWithApi (some s) w =
      .failure ("予期しないエラー: " ++ QuickTranslator.transportMsg r2) := by
  simp [QuickTranslator.translateWithApi, optStrFalsy, hs,
    QuickTranslator.tryBody, h1, h2, runToExcept, hr1, hr2,
    QuickTranslator.handleExc, pyErrStr]

/-- Witness for C4 with exit codes 7 and 6 and stderr `"a"`, `"b"`. -/
theorem gemini_transport_failure_carries_second_attempt_witness :
    QuickTranslator.translateWithApi (some "key")
        { run1 := .ok ⟨7, "", "a"⟩, run2 := .ok ⟨6, "", "b"⟩,
          parse := fun _ => none, t0 := 0, buildDur := 0, d1 := 1, d2 := 1 } =
      .failure ("予期しないエラー: " ++
        QuickTranslator.transportMsg ⟨6, "", "b"⟩) :=
  gemini_transport_failure_carries_second_attempt "key" (by decide)
    { run1 := .ok ⟨7, "", "a"⟩, run2 := .ok ⟨6, "", "b"⟩,
      parse := fun _ => none, t0 := 0, buildDur := 0, d1 := 1, d2 := 1 }
    ⟨7, "", "a"⟩ ⟨6, "", "b"⟩ rfl (by decide) rfl (by decide)

/-- C2 counterexample.  A parse failure (`MalformedResponse`) does *not*
reach the caller with its message unchanged: the classified `ValueError`
raised at line 163 is caught by the `except Exception` clause at line 198
and re-raised with the generic prefix `予期しないエラー: `. -/
theorem gemini_classified_error_not_verbatim_cex :
    QuickTranslator.translateWithApi (some "key") wMalformed =
      .failure ("予期しないエラー: エラー: 無効なJSONレスポンス\nInvalid JSON") ∧
    QuickTranslator.translateWithApi (some "key") wMalformed ≠
      .failure ("エラー: 無効なJSONレスポンス\nInvalid JSON") := by decide

/-- C2 amended.  Every classified failure raised inside the call body —
MalformedResponse, ApplicationError, NoResult, EmptyResult and the
double-transport TransportFailure, all `ValueError`s — reaches the caller
as a `ValueError` re-wrapped exactly once by the trailing
`except Exception` handler: the surfaced message is the generic prefix
`予期しないエラー: ` followed by the classified message unchanged.  This holds
for both the Gemini and the plamo translator. -/
theorem classified_failures_rewrapped (s : String) (hs : s ≠ "")
    (w : QuickTranslator.GeminiWorld) (m : String)
    (pPath : String) (hp : pPath ≠ "") (pw : PlamoTranslator.PlamoWorld)
    (pm : String) :
    (QuickTranslator.tryBody w = .error (.valueError m) →
      QuickTranslator.translateWithApi (some s) w =
        .failure ("予期しないエラー: " ++ m)) ∧
    (PlamoTranslator.tryBody pw = .error (.valueError pm) →
      PlamoTranslator.translateWithPlamoCli (some pPath) pw =
        .failure ("予期しないエラー: " ++ pm)) := by
  constructor <;> intro h <;>
    simp [QuickTranslator.translateWithApi,
      PlamoTranslator.translateWithPlamoCli, optStrFalsy, hs, hp, h,
      QuickTranslator.handleExc, PlamoTranslator.handleExc, pyErrStr]

/-- Witness for C2 amended: a malformed Gemini response and a failing
plamo CLI run both surface with the generic prefix before the classified
message. -/
theorem classified_failures_rewrapped_witness :
    QuickTranslator.translateWithApi (some "key") wMalformed =
      .failure ("予期しないエラー: " ++ "エラー: 無効なJSONレスポンス\nInvalid JSON") ∧
    PlamoTranslator.translateWithPlamoCli
        (some "/usr/local/bin/plamo-translate") pwCliError =
      .failure ("予期しないエラー: " ++ "plamo-translateエラー: boom") :=
  ⟨(classified_failures_rewrapped "key" (by decide) wMalformed
      "エラー: 無効なJSONレスポンス\nInvalid JSON" "/usr/local/bin/plamo-translate"
      (by decide) pwCliError "plamo-translateエラー: boom").1 (by decide),
   (classified_failures_rewrapped "key" (by decide) wMalformed
      "エラー: 無効なJSONレスポンス\nInvalid JSON" "/usr/local/bin/plamo-translate"
      (by decide) pwCliError "plamo-translateエラー: boom").2 (by decide)⟩

/-- C5 counterexample.  In `wFallbackSuccess` the first attempt fails
(exit 7, taking 1 time unit) and the URL-parameter fallback succeeds
(taking 5 units), after a 2-unit payload write.  The claim requires the
elapsed time of a fallback-determined outcome to cover both transport
attempts and nothing else (1 + 5 = 6); the code reports 3 — the payload
write plus the first attempt only, because `end_time` is read at line 131
and never updated after the fallback. -/
theorem gemini_elapsed_excludes_fallback_cex :
    QuickTranslator.translateWithApi (some "key") wFallbackSuccess =
      .success "HELLO" 3 ∧
    wFallbackSuccess.d1 + wFallbackSuccess.d2 = 6 ∧ (3 : Int) ≠ 6 := by
  decide

/-- Helper for C5: a normal return of the `try` body always carries
`buildDur + d1` as its elapsed time, whichever attempt produced the
response. -/
theorem gemini_tryBody_ok_elapsed (w : QuickTranslator.GeminiWorld)
    (t : String) (e : Int) (h : QuickTranslator.tryBody w = .ok (t, e)) :
    e = w.buildDur + w.d1 := by
  unfold QuickTranslator.tryBody at h
  cases hr : runToExcept w.run1 with
  | error e0 => rw [hr] at h; exact absurd h (by simp)
  | ok r1 =>
    rw [hr] at h
    dsimp only at h
    split at h
    · exact absurd h (by simp)
    · split at h
      · exact absurd h (by simp)
      · rw [Except.ok.injEq, Prod.mk.injEq] at h
        omega

/-- C5 amended.  The elapsed seconds reported with a `Success` outcome are
always `time.time()` at line 131 minus `time.time()` at line 88: the
payload-file write plus the *first* transport attempt.  Request building
is included, and when the fallback variant determines the outcome its
duration is not counted. -/
theorem gemini_elapsed_build_plus_first_attempt (apiKey : Option String)
    (w : QuickTranslator.GeminiWorld) (text : String) (elapsed : Int)
    (h : QuickTranslator.translateWithApi apiKey w = .success text elapsed) :
    elapsed = w.buildDur + w.d1 := by
  unfold QuickTranslator.translateWithApi at h
  split at h
  · exact absurd h (by simp)
  · cases htb : QuickTranslator.tryBody w with
    | error e0 => rw [htb] at h; exact absurd h (by simp)
    | ok p =>
      obtain ⟨tt, ee⟩ := p
      rw [htb] at h
      rw [TransOutcome.success.injEq] at h
      exact h.2 ▸ gemini_tryBody_ok_elapsed w tt ee htb

/-- Witness for C5 amended at the fallback world: the reported elapsed 3
equals `buildDur + d1 = 2 + 1`. -/
theorem gemini_elapsed_build_plus_first_attempt_witness :
    (3 : Int) = wFallbackSuccess.buildDur + wFallbackSuccess.d1 :=
  gemini_elapsed_build_plus_first_attempt (some "key") wFallbackSuccess
    "HELLO" 3 (by decide)

/-- C8.  When the raw PATH list already contains all three conventionally
important directories the augmentation is a fixpoint: nothing is added,
duplicated or reordered. -/
theorem ensure_common_paths_fixpoint (home : String) (isDir : String → Bool)
    (L : List String)
    (h : ∀ p ∈ PlamoTranslator.importantPaths home, L.contains p = true) :
    PlamoTranslator.ensureCommonPaths home isDir L = L := by
  have ha : home ++ "/.local/bin" ∈ L := by
    simpa using h (home ++ "/.local/bin")
      (by simp [PlamoTranslator.importantPaths])
  have hb : "/opt/homebrew/bin" ∈ L := by
    simpa using h "/opt/homebrew/bin" (by simp [PlamoTranslator.importantPaths])
  have hc : "/usr/local/bin" ∈ L := by
    simpa using h "/usr/local/bin" (by simp [PlamoTranslator.importantPaths])
  simp [PlamoTranslator.ensureCommonPaths, PlamoTranslator.importantPaths,
    PlamoTranslator.ensureStep, ha, hb, hc]

/-- Witness for C8 on a complete concrete PATH list. -/
theorem ensure_common_paths_fixpoint_witness :
    PlamoTranslator.ensureCommonPaths "/Users/u" (fun _ => true)
      ["/Users/u/.local/bin", "/opt/homebrew/bin", "/usr/local/bin", "/bin"] =
      ["/Users/u/.local/bin", "/opt/homebrew/bin", "/usr/local/bin", "/bin"] :=
  ensure_common_paths_fixpoint "/Users/u" (fun _ => true)
    ["/Users/u/.local/bin", "/opt/homebrew/bin", "/usr/local/bin", "/bin"]
    (by decide)

/-- C7 counterexample.  Augmenting `["/bin"]` when every important
directory exists prepends the fixed set in *declaration* order —
`~/.local/bin` first, `/usr/local/bin` last — not with the later-declared
entries first as the claim states. -/
theorem ensure_common_paths_declaration_order_cex :
    PlamoTranslator.ensureCommonPaths "/Users/u" (fun _ => true) ["/bin"] =
      ["/Users/u/.local/bin", "/opt/homebrew/bin", "/usr/local/bin",
        "/bin"] ∧
    PlamoTranslator.ensureCommonPaths "/Users/u" (fun _ => true) ["/bin"] ≠
      ["/usr/local/bin", "/opt/homebrew/bin", "/Users/u/.local/bin",
        "/bin"] := by decide

/-- Helper for C7: folding the insertion step over the reversed fixed list
prepends, in declaration order, exactly the entries that are missing from
the input and exist on disk. -/
theorem ensure_common_paths_foldl (isDir : String → Bool) (L : List String) :
    ∀ ps : List String, ps.Nodup →
      ps.reverse.foldl (PlamoTranslator.ensureStep isDir) L =
        ps.filter (fun p => !L.contains p && isDir p) ++ L := by
  intro ps
  induction ps with
  | nil => intro _; rfl
  | cons p rest ih =>
    intro hnd
    rw [List.nodup_cons] at hnd
    obtain ⟨hpn, hrest⟩ := hnd
    rw [List.reverse_cons, List.foldl_append, ih hrest]
    simp only [List.foldl_cons, List.foldl_nil]
    have hpf : p ∉ rest.filter (fun q => !L.contains q && isDir q) :=
      fun hm => hpn (List.mem_filter.mp hm).1
    have hF : (rest.filter (fun q => !L.contains q && isDir q)).contains p =
        false := by simpa using hpf
    have hcont :
        ((rest.filter (fun q => !L.contains q && isDir q)) ++ L).contains p =
          L.contains p := by
      rw [List.contains_eq_any_beq, List.any_append,
        ← List.contains_eq_any_beq, ← List.contains_eq_any_beq, hF,
        Bool.false_or]
    rw [PlamoTranslator.ensureStep, hcont]
    simp only [List.filter_cons]
    cases hbp : (!L.contains p && isDir p) <;> simp

/-- C7 amended.  For a raw PATH list missing an important directory `d`
that exists on disk, the augmented list equals the missing-but-existing
important directories — in their declaration order, the earlier-declared
ones first — prepended as a block to the untouched input list; in
particular `d` occurs exactly once and before all original entries. -/
theorem ensure_common_paths_augmentation (home : String)
    (isDir : String → Bool) (L : List String) (d : String)
    (hnd : (PlamoTranslator.importantPaths home).Nodup)
    (hd : d ∈ PlamoTranslator.importantPaths home)
    (hnL : L.contains d = false) (hdir : isDir d = true) :
    PlamoTranslator.ensureCommonPaths home isDir L =
      ((PlamoTranslator.importantPaths home).filter
        (fun p => !L.contains p && isDir p)) ++ L ∧
    (PlamoTranslator.ensureCommonPaths home isDir L).count d = 1 := by
  have hchar := ensure_common_paths_foldl isDir L
    (PlamoTranslator.importantPaths home) hnd
  unfold PlamoTranslator.ensureCommonPaths
  refine ⟨hchar, ?_⟩
  have hdn : d ∉ L := by simpa using hnL
  have hFmem : d ∈ (PlamoTranslator.importantPaths home).filter
      (fun p => !L.contains p && isDir p) :=
    List.mem_filter.mpr ⟨hd, by simp [hdn, hdir]⟩
  rw [hchar, List.count_append,
    List.count_eq_one_of_mem (List.Nodup.filter _ hnd) hFmem,
    List.count_eq_zero.mpr hdn]

/-- Witness for C7 amended: `/usr/local/bin` missing from `["/bin"]`. -/
theorem ensure_common_paths_augmentation_witness :
    PlamoTranslator.ensureCommonPaths "/Users/u" (fun _ => true) ["/bin"] =
      ((PlamoTranslator.importantPaths "/Users/u").filter
        (fun p => !(["/bin"].contains p) && (fun _ => true) p)) ++ ["/bin"] ∧
    (PlamoTranslator.ensureCommonPaths "/Users/u" (fun _ => true)
      ["/bin"]).count "/usr/local/bin" = 1 :=
  ensure_common_paths_augmentation "/Users/u" (fun _ => true) ["/bin"]
    "/usr/local/bin" (by decide) (by decide) (by decide) rfl
